import Mathlib

/-!
Verification of the Conversa Instagram-commerce bot against its
natural-language specification.

The development shallowly embeds the Python modules `core/ai_chat.py`,
`core/views.py`, `core/instagram_api.py` and the data model of
`core/models.py`.  Django querysets become explicit lists; the database is a
record of lists; machine effects that are outside the program (the OpenAI
HTTP call, HMAC-SHA256, JSON serialisation of `json.dumps`/`json.loads`,
the Instagram send API) are parameters of the embedded functions, so every
theorem quantifies over their behaviour.  Timestamps (`created_at`,
`timezone.now()`) are naturals counted in seconds.  Strings are handled
through their character lists (ASCII reading of the Python `str` methods),
and `order_by(...)` is a stable sort consistent with the named key.
-/

namespace Conversa

/-! ### String helpers mirroring the Python primitives -/

/-- All suffixes of a list, longest first (including the empty suffix). -/
def suffixes : List Char → List (List Char)
  | [] => [[]]
  | c :: cs => (c :: cs) :: suffixes cs

/-- Python `needle in hay` on strings: substring containment. -/
def containsStr (hay needle : String) : Bool :=
  (suffixes hay.data).any (fun t => needle.data.isPrefixOf t)

/-- Python `str.lower()` (ASCII reading). -/
def pyLower (s : String) : String :=
  ⟨s.data.map Char.toLower⟩

/-- Django `field__icontains=term`: case-insensitive substring containment. -/
def icontains (field term : String) : Bool :=
  containsStr (pyLower field) (pyLower term)

/-- Python `str.strip()`. -/
def pyStrip (s : String) : String :=
  ⟨((s.data.dropWhile Char.isWhitespace).reverse.dropWhile Char.isWhitespace).reverse⟩

/-- Python `s[:n]`. -/
def pyTake (s : String) (n : Nat) : String :=
  ⟨s.data.take n⟩

/-- Python `s[n:]`. -/
def pyDrop (s : String) (n : Nat) : String :=
  ⟨s.data.drop n⟩

/-- Python `s.startswith(p)`. -/
def pyStartsWith (s p : String) : Bool :=
  p.data.isPrefixOf s.data

/-- The chunks of a character list between separators (empty chunks kept). -/
def splitChars (p : Char → Bool) : List Char → List (List Char)
  | [] => [[]]
  | c :: cs =>
    if p c then [] :: splitChars p cs
    else
      match splitChars p cs with
      | [] => [[c]]
      | w :: ws => (c :: w) :: ws

/-- Python `str.split()` with no argument: split on whitespace, no empties. -/
def pySplitWs (s : String) : List String :=
  ((splitChars Char.isWhitespace s.data).map (fun l => (⟨l⟩ : String))).filter
    (fun w => w ≠ "")

/-- A word character of the regex `\w` (ASCII reading): letters, digits, underscore. -/
def wordChar (c : Char) : Bool :=
  c.isAlphanum || c = '_'

/-- Python `re.findall(r'\b\w+\b', s)`: the maximal runs of word characters. -/
def findWords (s : String) : List String :=
  ((splitChars (fun c => !wordChar c) s.data).map (fun l => (⟨l⟩ : String))).filter
    (fun w => w ≠ "")

/-- Python `" ".join(parts)`. -/
def joinSpace : List String → String
  | [] => ""
  | [s] => s
  | s :: rest => s ++ " " ++ joinSpace rest

/-- Lexicographic comparison of character lists (the order `ORDER BY` a text
column follows, in its ASCII reading). -/
def charListLe : List Char → List Char → Bool
  | [], _ => true
  | _ :: _, [] => false
  | a :: as, b :: bs => if a = b then charListLe as bs else decide (a < b)

theorem charListLe_total : ∀ l₁ l₂ : List Char,
    charListLe l₁ l₂ = true ∨ charListLe l₂ l₁ = true := by
  intro l₁
  induction l₁ with
  | nil => intro l₂; left; rfl
  | cons a as ih =>
    intro l₂
    cases l₂ with
    | nil => right; rfl
    | cons b bs =>
      by_cases hab : a = b
      · subst hab
        rcases ih bs with h | h
        · left; simpa [charListLe] using h
        · right; simpa [charListLe] using h
      · rcases lt_or_gt_of_ne hab with hlt | hgt
        · left; simp [charListLe, hab, hlt]
        · right; simp [charListLe, Ne.symm hab, hgt]

theorem charListLe_trans : ∀ l₁ l₂ l₃ : List Char,
    charListLe l₁ l₂ = true → charListLe l₂ l₃ = true → charListLe l₁ l₃ = true := by
  intro l₁
  induction l₁ with
  | nil => intro l₂ l₃ _ _; rfl
  | cons a as ih =>
    intro l₂ l₃ h12 h23
    cases l₂ with
    | nil => simp [charListLe] at h12
    | cons b bs =>
      cases l₃ with
      | nil => simp [charListLe] at h23
      | cons c cs =>
        by_cases hab : a = b <;> by_cases hbc : b = c
        · subst hab; subst hbc
          simp only [charListLe, if_pos rfl] at h12 h23 ⊢
          exact ih bs cs h12 h23
        · subst hab
          simp only [charListLe, if_pos rfl, if_neg hbc] at h23 ⊢
          simp [hbc, h23]
        · subst hbc
          simp only [charListLe, if_pos rfl, if_neg hab] at h12 ⊢
          simp [hab, h12]
        · simp only [charListLe, if_neg hab, if_neg hbc, decide_eq_true_eq] at h12 h23
          have hac : a < c := lt_trans h12 h23
          simp [charListLe, ne_of_lt hac, hac]

/-! ### Data model (`core/models.py`) -/

/-- `MessageLog.direction` choices. -/
inductive Direction where
  | incoming
  | outgoing
deriving DecidableEq, Repr

/-- `core.models.Business` (the fields the messaging pipeline reads;
`owner`, the WhatsApp fields and the token bookkeeping are not consulted by
the embedded code paths). -/
structure Business where
  id : Nat
  name : String
  active : Bool
  ai_enabled : Bool
  allow_auto_reply_from_unknown : Bool
  instagram_page_id : Option String
deriving DecidableEq, Repr

/-- `core.models.Category`: `business = none` is a global category. -/
structure Category where
  id : Nat
  name : String
  business_id : Option Nat
  is_global : Bool
deriving DecidableEq, Repr

/-- `core.models.Product`.  `price_usd` carries the decimal amount (the code
only copies it into reply dictionaries); `metadata` stands for the
serialised JSON blob. -/
structure Product where
  id : Nat
  business_id : Nat
  category_id : Option Nat
  sku : Option String
  name : String
  description : String
  price_usd : Int
  price_lbp : Option Int
  stock : Int
  metadata : Option String
  active : Bool
deriving DecidableEq, Repr

/-- A `core.models.Customer` key: (business id, platform sender id).  The
`platform` column is `'instagram'` on every row the webhook code writes. -/
abbrev CustomerKey := Nat × Option String

/-- `core.models.MessageLog`. -/
structure LogRow where
  business_id : Nat
  customer : Option CustomerKey
  sender_id : Option String
  incoming_text : Option String
  reply_text : Option String
  direction : Direction
  error_message : Option String
  created_at : Nat
deriving DecidableEq, Repr

/-- The database: one list per table. -/
structure DB where
  businesses : List Business
  categories : List Category
  products : List Product
  customers : List CustomerKey
  logs : List LogRow
deriving Repr

/-- `Business.objects.get(id=business_id, active=True)` (ids are unique). -/
def findBusinessById (db : DB) (business_id : Nat) : Option Business :=
  db.businesses.find? (fun b => b.id == business_id && b.active)

/-- `Business.objects.get(instagram_page_id=page_id, active=True)`. -/
def findBusinessByPage (db : DB) (page_id : Option String) : Option Business :=
  db.businesses.find? (fun b => b.instagram_page_id == page_id && b.active)

/-- `business.products.filter(active=True)` in database order. -/
def businessActiveProducts (db : DB) (b : Business) : List Product :=
  db.products.filter (fun p => p.business_id == b.id && p.active)

/-- `product.category.name if product.category else None`. -/
def categoryNameOf (db : DB) (p : Product) : Option String :=
  p.category_id.bind (fun cid => (db.categories.find? (fun c => c.id == cid)).map (·.name))

/-- Ascending order by product name (`order_by('name')`). -/
def prodNameRel (a b : Product) : Prop :=
  charListLe a.name.data b.name.data = true

instance : DecidableRel prodNameRel :=
  fun a b => inferInstanceAs (Decidable (_ = true))

instance : IsTotal Product prodNameRel :=
  ⟨fun a b => charListLe_total a.name.data b.name.data⟩

instance : IsTrans Product prodNameRel :=
  ⟨fun a b c => charListLe_trans a.name.data b.name.data c.name.data⟩

/-- Ascending order by category name (the model `Meta.ordering = ['name']`
and the explicit `order_by('name')`). -/
def catNameRel (a b : Category) : Prop :=
  charListLe a.name.data b.name.data = true

instance : DecidableRel catNameRel :=
  fun a b => inferInstanceAs (Decidable (_ = true))

instance : IsTotal Category catNameRel :=
  ⟨fun a b => charListLe_total a.name.data b.name.data⟩

instance : IsTrans Category catNameRel :=
  ⟨fun a b c => charListLe_trans a.name.data b.name.data c.name.data⟩

/-- Ascending order by `created_at` (`order_by('created_at')`). -/
def createdAtLe (a b : LogRow) : Prop :=
  a.created_at ≤ b.created_at

instance : DecidableRel createdAtLe :=
  fun a b => inferInstanceAs (Decidable (_ ≤ _))

instance : IsTotal LogRow createdAtLe :=
  ⟨fun a b => Nat.le_total a.created_at b.created_at⟩

instance : IsTrans LogRow createdAtLe :=
  ⟨fun _ _ _ => Nat.le_trans⟩

/-- Descending order by `created_at` (`order_by('-created_at')`). -/
def createdAtGe (a b : LogRow) : Prop :=
  b.created_at ≤ a.created_at

instance : DecidableRel createdAtGe :=
  fun a b => inferInstanceAs (Decidable (_ ≤ _))

instance : IsTotal LogRow createdAtGe :=
  ⟨fun a b => Nat.le_total b.created_at a.created_at⟩

instance : IsTrans LogRow createdAtGe :=
  ⟨fun _ _ _ h h' => Nat.le_trans h' h⟩

/-! ### Reply dictionaries of `core/ai_chat.py` -/

/-- An element of the `categories` list built by `_get_categories_data`. -/
structure CategoryEntry where
  name : String
  product_count : Nat
  is_global : Bool
deriving DecidableEq, Repr

/-- A product dictionary of `_get_products_by_category_data`. -/
structure CategoryProductEntry where
  name : String
  sku : Option String
  price_usd : Int
  price_lbp : Option Int
  description : String
  metadata : Option String
  available : Bool
deriving DecidableEq, Repr

/-- The dictionary returned by `_get_product_details_data`. -/
structure ProductDetailsEntry where
  name : String
  sku : Option String
  description : String
  price_usd : Int
  price_lbp : Option Int
  category : Option String
  metadata : Option String
  available : Bool
deriving DecidableEq, Repr

/-- A product dictionary of `_search_products_data`. -/
structure SearchProductEntry where
  name : String
  sku : Option String
  price_usd : Int
  price_lbp : Option Int
  category : Option String
  available : Bool
deriving DecidableEq, Repr

/-- A product dictionary of `_identify_product_from_post_context`
(`match_reason` is present only on phase-2 keyword matches). -/
structure IdentifyEntry where
  name : String
  sku : Option String
  price_usd : Int
  price_lbp : Option Int
  description : String
  category : Option String
  available : Bool
  match_reason : Option String
deriving DecidableEq, Repr

/-- The structured dictionary a backend function returns to the model
(`_execute_function` and the `_get_*_data` helpers). -/
inductive FuncResult where
  | categoriesData (categories : List CategoryEntry) (total_categories : Nat)
  | categoryProducts (category : String) (products : List CategoryProductEntry)
      (total_products : Nat)
  | productDetails (d : ProductDetailsEntry)
  | searchResults (search_term : String) (products : List SearchProductEntry)
      (total_found : Nat)
  | identifyFound (products : List IdentifyEntry) (post_caption : String)
      (user_message : String) (message : String)
  | identifyNotFound (post_caption : String) (user_message : String) (message : String)
  | error (msg : String)
deriving DecidableEq, Repr

/-! ### Catalog query functions (`core/ai_chat.py`) -/

/-- `_get_categories_data(business)`: `business.categories.all().order_by('name')`
— the reverse foreign-key manager, so only rows with `business = b`. -/
def _get_categories_data (db : DB) (b : Business) : FuncResult :=
  let categories :=
    List.insertionSort catNameRel (db.categories.filter (fun c => c.business_id == some b.id))
  let categories_data := categories.map (fun c =>
    { name := c.name
      product_count :=
        (db.products.filter (fun p => p.category_id == some c.id && p.active)).length
      is_global := c.is_global : CategoryEntry })
  .categoriesData categories_data categories_data.length

/-- The dictionary `_get_products_by_category_data` builds per product. -/
def toCategoryProductEntry (p : Product) : CategoryProductEntry :=
  { name := p.name, sku := p.sku, price_usd := p.price_usd, price_lbp := p.price_lbp
    description := p.description, metadata := p.metadata, available := decide (0 < p.stock) }

/-- `_get_products_by_category_data(business, category_name)`.  The category
lookup `business.categories.filter(name__icontains=...).first()` follows the
model default ordering by name. -/
def _get_products_by_category_data (db : DB) (b : Business) (category_name : String) :
    FuncResult :=
  let hits := List.insertionSort catNameRel (db.categories.filter
    (fun c => c.business_id == some b.id && icontains c.name category_name))
  match hits.head? with
  | none => .error ("Category '" ++ category_name ++ "' not found")
  | some category =>
    let products := List.insertionSort prodNameRel (db.products.filter
      (fun p => p.category_id == some category.id && p.active))
    let products_data := products.map toCategoryProductEntry
    .categoryProducts category.name products_data products_data.length

/-- `_get_product_details_data(business, product_name)`:
`business.products.filter(name__icontains=..., active=True).first()` with no
ordering — database order. -/
def _get_product_details_data (db : DB) (b : Business) (product_name : String) :
    FuncResult :=
  let hit := (db.products.filter (fun p =>
    p.business_id == b.id && icontains p.name product_name && p.active)).head?
  match hit with
  | none => .error ("Product '" ++ product_name ++ "' not found")
  | some p =>
    .productDetails
      { name := p.name, sku := p.sku, description := p.description
        price_usd := p.price_usd, price_lbp := p.price_lbp
        category := categoryNameOf db p, metadata := p.metadata
        available := decide (0 < p.stock) }

/-- The dictionary `_search_products_data` builds per product. -/
def toSearchProductEntry (db : DB) (p : Product) : SearchProductEntry :=
  { name := p.name, sku := p.sku, price_usd := p.price_usd, price_lbp := p.price_lbp
    category := categoryNameOf db p, available := decide (0 < p.stock) }

/-- The queryset of `_search_products_data`: name-or-description icontains
filter over the business's active products, ordered by name, capped at 10. -/
def searchQuery (db : DB) (b : Business) (search_term : String) : List Product :=
  (List.insertionSort prodNameRel (db.products.filter (fun p =>
      p.business_id == b.id
        && (icontains p.name search_term || icontains p.description search_term)
        && p.active))).take 10

/-- `_search_products_data(business, search_term)`. -/
def _search_products_data (db : DB) (b : Business) (search_term : String) : FuncResult :=
  let products_data := (searchQuery db b search_term).map (toSearchProductEntry db)
  .searchResults search_term products_data products_data.length

/-! ### Post-context product identification (`_identify_product_from_post_context`) -/

/-- Phase 1 of `_identify_product_from_post_context`: the active products of
the business whose lower-cased full name is a substring of the lower-cased
caption, or one of whose name's whitespace-split words longer than 3
characters is. -/
def phase1Matches (db : DB) (b : Business) (post_caption : String) : List Product :=
  let caption_lower := pyLower post_caption
  (businessActiveProducts db b).filter (fun p =>
    let product_name_lower := pyLower p.name
    containsStr caption_lower product_name_lower
      || (pySplitWs product_name_lower).any (fun word =>
            decide (3 < word.length) && containsStr caption_lower word))

/-- Phase 2 of `_identify_product_from_post_context`: for each caption word
(`re.findall(r'\b\w+\b', caption_lower)`) longer than 3 characters, the first
3 active products matching it by `name__icontains` or
`description__icontains`, paired with the keyword that matched. -/
def phase2Matches (db : DB) (b : Business) (post_caption : String) :
    List (Product × String) :=
  let caption_lower := pyLower post_caption
  (findWords caption_lower).flatMap (fun word =>
    if 3 < word.length then
      ((db.products.filter (fun p =>
          p.business_id == b.id
            && (icontains p.name word || icontains p.description word)
            && p.active)).take 3).map (fun p => (p, word))
    else [])

/-- The phase-1 product dictionary (no `match_reason`). -/
def toIdentifyEntry (db : DB) (p : Product) : IdentifyEntry :=
  { name := p.name, sku := p.sku, price_usd := p.price_usd, price_lbp := p.price_lbp
    description := p.description, category := categoryNameOf db p
    available := decide (0 < p.stock), match_reason := none }

/-- The phase-2 product dictionary, tagged with the matching keyword. -/
def toKeywordEntry (db : DB) (pw : Product × String) : IdentifyEntry :=
  { name := pw.1.name, sku := pw.1.sku, price_usd := pw.1.price_usd
    price_lbp := pw.1.price_lbp, description := pw.1.description
    category := categoryNameOf db pw.1, available := decide (0 < pw.1.stock)
    match_reason :=
      some ("Keyword '" ++ pw.2 ++ "' found in product name or description") }

/-- `_identify_product_from_post_context(business, post_caption, user_message)`.
`matching_products` of the source is `(phase1Matches ...).map (toIdentifyEntry db)`,
`keyword_matches` is `(phase2Matches ...).map (toKeywordEntry db)`. -/
def _identify_product_from_post_context (db : DB) (b : Business)
    (post_caption user_message : String) : FuncResult :=
  if (phase1Matches db b post_caption).map (toIdentifyEntry db) ≠ [] then
    .identifyFound ((phase1Matches db b post_caption).map (toIdentifyEntry db))
      post_caption user_message
      ("Found "
        ++ toString ((phase1Matches db b post_caption).map (toIdentifyEntry db)).length
        ++ " product(s) mentioned in the post caption")
  else if (phase2Matches db b post_caption).map (toKeywordEntry db) ≠ [] then
    .identifyFound (((phase2Matches db b post_caption).map (toKeywordEntry db)).take 5)
      post_caption user_message
      ("Found "
        ++ toString ((phase2Matches db b post_caption).map (toKeywordEntry db)).length
        ++ " product(s) matching keywords from the post caption")
  else
    .identifyNotFound post_caption user_message
      "No products found matching the post caption. Please specify the product name."

/-! ### Conversation history (`_get_conversation_history`) -/

/-- One entry of the OpenAI `messages` array. -/
structure ChatTurn where
  role : String
  content : String
deriving DecidableEq, Repr

/-- The queryset of `_get_conversation_history`: rows of the business created
within the last 2 hours, filtered by sender when `sender_id` is truthy,
ordered ascending by `created_at`. -/
def historyQuery (db : DB) (business_id : Nat) (sender_id : Option String) (now : Nat) :
    List LogRow :=
  let since := now - 7200
  List.insertionSort createdAtLe (db.logs.filter (fun r =>
    r.business_id == business_id
      && since ≤ r.created_at
      && (match sender_id with
          | some s => s == "" || r.sender_id == some s
          | none => true)))

/-- The user/assistant turns reconstructed from a row slice (`if
msg.incoming_text:` and `if msg.reply_text:` are Python truthiness, so empty
texts contribute no turn). -/
def turnsOf (rows : List LogRow) : List ChatTurn :=
  rows.flatMap (fun msg =>
    (match msg.incoming_text with
     | some t => if t ≠ "" then [{ role := "user", content := t : ChatTurn }] else []
     | none => []) ++
    (match msg.reply_text with
     | some t => if t ≠ "" then [{ role := "assistant", content := t : ChatTurn }] else []
     | none => []))

/-- `_get_conversation_history(business_id, sender_id)`: turns of the first 3
rows of the ascending-ordered window (`query[:3]`). -/
def _get_conversation_history (db : DB) (business_id : Nat) (sender_id : Option String)
    (now : Nat) : List ChatTurn :=
  turnsOf ((historyQuery db business_id sender_id now).take 3)

/-- Python `lst[-n:]`. -/
def lastSlice (l : List ChatTurn) (n : Nat) : List ChatTurn :=
  l.drop (l.length - n)

/-- The `recent_history = conversation_history[-3:]` slice that
`_call_openai_api_with_functions` inserts into the model's `messages`
array, on the non-greeting path of `get_ai_response`. -/
def modelHistoryTurns (db : DB) (business_id : Nat) (sender_id : Option String)
    (now : Nat) : List ChatTurn :=
  lastSlice (_get_conversation_history db business_id sender_id now) 3

/-! ### The AI response engine (`get_ai_response`) -/

/-- `_get_fallback_response()`. -/
def _get_fallback_response : String :=
  "Thank you for your message! I'm currently having trouble processing your request. Please try again in a moment, or contact us directly for immediate assistance."

/-- The fixed reply of `get_ai_response` to an empty or whitespace message. -/
def emptyMessageResponse : String :=
  "I received your message but it appears to be empty. Could you please try again?"

/-- The fixed reply of `get_ai_response` when the business is missing or inactive. -/
def businessUnavailableResponse : String :=
  "I'm sorry, but I'm having trouble accessing your business information right now. Please try again later."

/-- `_is_greeting_or_general_question(message)`. -/
def _is_greeting_or_general_question (message : String) : Bool :=
  let message_lower := pyStrip (pyLower message)
  (["hello", "hi", "hey", "good morning", "good afternoon", "good evening",
    "what do you sell", "what products do you have", "what do you have"]).any
    (fun greeting => containsStr message_lower greeting)

/-- `_should_show_products_directly(message)` (its result is only logged). -/
def _should_show_products_directly (message : String) : Bool :=
  let message_lower := pyStrip (pyLower message)
  (["show me", "show", "products", "options", "available", "other options",
    "another options", "different options", "more options", "what do you have",
    "what do you sell"]).any (fun r => containsStr message_lower r)

/-- The outcome of the OpenAI interaction inside
`_call_openai_api_with_functions` (both completion calls, JSON decoding of
the function arguments and the function-call round-trip): `.ok content` is
the final message content, `.error e` any raised exception. -/
abbrev ModelOutcome := Except String String

/-- `_call_openai_api_with_functions(system_prompt, user_message,
conversation_history, business_id)`.  The network interaction is the
`outcome` parameter; the `messages` array it would send carries
`lastSlice conversation_history 3` (line 187 of `ai_chat.py`). -/
def _call_openai_api_with_functions (apiKey : Option String) (outcome : ModelOutcome)
    (system_prompt user_message : String) (conversation_history : List ChatTurn) :
    String :=
  match apiKey with
  | none => _get_fallback_response
  | some _ =>
    let _messages :=
      { role := "system", content := system_prompt : ChatTurn }
        :: lastSlice conversation_history 3
        ++ [{ role := "user", content := user_message : ChatTurn }]
    match outcome with
    | .ok content => pyStrip content
    | .error _ => _get_fallback_response

/-- The system prompt of `_build_system_prompt_without_products` (its fixed
instruction body is irrelevant to every claim; only the business name enters it). -/
def _build_system_prompt_without_products (b : Business) : String :=
  "You are an AI assistant for " ++ b.name ++ ", a business that sells products online."

/-- `get_ai_response(business_id, customer_message, sender_id)`.  `apiKey`
models `OPENAI_API_KEY`, `outcome` the OpenAI interaction, `now` the clock. -/
def get_ai_response (apiKey : Option String) (outcome : ModelOutcome) (db : DB)
    (business_id : Nat) (customer_message : String) (sender_id : Option String)
    (now : Nat) : String :=
  if pyStrip customer_message = "" then
    emptyMessageResponse
  else
    let customer_message := pyTake customer_message 1000
    match findBusinessById db business_id with
    | none => businessUnavailableResponse
    | some business =>
      let conversation_history := _get_conversation_history db business_id sender_id now
      let conversation_history :=
        if _is_greeting_or_general_question customer_message then
          lastSlice conversation_history 1
        else conversation_history
      let system_prompt := _build_system_prompt_without_products business
      _call_openai_api_with_functions apiKey outcome system_prompt customer_message
        conversation_history

/-! ### Tool schema and dispatch (`_call_openai_api_with_functions`,
`_execute_function`) -/

/-- One entry of the `functions` array sent to the model: its name, its
parameter names, and which of them are required. -/
structure ToolSpec where
  name : String
  params : List String
  required : List String
deriving DecidableEq, Repr

/-- The `functions` array defined inside `_call_openai_api_with_functions`,
in source order. -/
def functionsMenu : List ToolSpec :=
  [ { name := "get_categories", params := [], required := [] },
    { name := "get_products_by_category", params := ["category_name"],
      required := ["category_name"] },
    { name := "get_product_details", params := ["product_name"],
      required := ["product_name"] },
    { name := "search_products", params := ["search_term"],
      required := ["search_term"] },
    { name := "handle_yes_response", params := ["category_name"],
      required := ["category_name"] },
    { name := "identify_product_from_post_context",
      params := ["post_caption", "user_message"],
      required := ["post_caption", "user_message"] } ]

/-- The JSON dictionary of model-supplied arguments. -/
abbrev FuncArgs := List (String × String)

/-- Python `function_args.get(key, "")`. -/
def getArg (args : FuncArgs) (key : String) : String :=
  match args.find? (fun kv => kv.1 == key) with
  | some kv => kv.2
  | none => ""

/-- `str(e)` of `Business.DoesNotExist`, the only exception the
`_execute_function` body can raise. -/
def errBusinessMissing : String :=
  "Business matching query does not exist."

/-- `_execute_function(function_name, function_args, business_id)`. -/
def _execute_function (db : DB) (function_name : String) (function_args : FuncArgs)
    (business_id : Nat) : FuncResult :=
  match findBusinessById db business_id with
  | none => .error errBusinessMissing
  | some business =>
    if function_name = "get_categories" then
      _get_categories_data db business
    else if function_name = "get_products_by_category" then
      _get_products_by_category_data db business (getArg function_args "category_name")
    else if function_name = "get_product_details" then
      _get_product_details_data db business (getArg function_args "product_name")
    else if function_name = "search_products" then
      _search_products_data db business (getArg function_args "search_term")
    else if function_name = "handle_yes_response" then
      _get_products_by_category_data db business (getArg function_args "category_name")
    else if function_name = "identify_product_from_post_context" then
      _identify_product_from_post_context db business
        (getArg function_args "post_caption") (getArg function_args "user_message")
    else
      .error ("Unknown function: " ++ function_name)

/-! ### Webhook signature verification (`core/instagram_api.py`) -/

/-- `verify_webhook_signature(payload, signature)`.  `hmacHex secret payload`
stands for `hmac.new(secret, payload, sha256).hexdigest()`; the final
`hmac.compare_digest` is functionally string equality (its constant-time
execution is a timing property outside this embedding).  `FB_APP_SECRET`
unset or empty is falsy, so verification is skipped. -/
def verify_webhook_signature (hmacHex : String → String → String)
    (appSecret : Option String) (payload signature : String) : Bool :=
  match appSecret with
  | none => true
  | some secret =>
    if secret = "" then true
    else
      (if pyStartsWith signature "sha256=" then pyDrop signature 7 else signature) ==
        hmacHex secret payload

/-! ### Post context (`core/views.py`) -/

/-- The dictionary `_extract_post_context` assembles (every key it can set). -/
structure PostContext where
  media_id : Option String := none
  post_caption : Option String := none
  post_id : Option String := none
  post_url : Option String := none
  asset_id : Option String := none
  share_url : Option String := none
  story_id : Option String := none
  story_url : Option String := none
  reel_id : Option String := none
  reel_url : Option String := none
deriving DecidableEq, Repr

/-- The fixed instruction sentence `_enhance_message_with_post_context`
appends last. -/
def postContextInstruction : String :=
  "[Please consider that this message is a reply to a post. The user might be asking about the product shown in that post. If the message is just 'price?' or 'cost?' or similar, they are likely asking about the product in the post they replied to. Use the post caption to understand what product they're referring to.]"

/-- `_enhance_message_with_post_context(message_text, post_context)`. -/
def _enhance_message_with_post_context (message_text : String)
    (post_context : Option PostContext) : String :=
  match post_context with
  | none => message_text
  | some ctx =>
    let enhanced_parts := [message_text]
      ++ (match ctx.media_id with
          | some m => ["[This message is a reply to media ID: " ++ m ++ "]"]
          | none => [])
      ++ (match ctx.post_id with
          | some p => ["[This message is a reply to post ID: " ++ p ++ "]"]
          | none => [])
      ++ (match ctx.post_url with
          | some u => ["[Post URL: " ++ u ++ "]"]
          | none => [])
      ++ (match ctx.post_caption with
          | some c => ["[Post caption: " ++ c ++ "]"]
          | none => [])
      ++ (match ctx.story_id with
          | some s => ["[This message is a reply to story ID: " ++ s ++ "]"]
          | none => [])
      ++ (match ctx.reel_id with
          | some r => ["[This message is a reply to reel ID: " ++ r ++ "]"]
          | none => [])
      ++ [postContextInstruction]
    joinSpace enhanced_parts

/-- The `incoming_text` marker of a stored post-context row. -/
def postContextMarker : String :=
  "[POST_CONTEXT_STORED]"

/-- `Customer.objects.get_or_create(...)`: ensure the key exists. -/
def addCustomer (db : DB) (business_id : Nat) (platform_id : Option String) : DB :=
  if db.customers.any (fun c => c.1 == business_id && c.2 == platform_id) then db
  else { db with customers := db.customers ++ [(business_id, platform_id)] }

/-- Whether the customer key already exists (the negation of the `created`
flag `get_or_create` returns). -/
def customerExists (db : DB) (business_id : Nat) (platform_id : Option String) : Bool :=
  db.customers.any (fun c => c.1 == business_id && c.2 == platform_id)

/-- The `MessageLog` row `_store_post_context_in_conversation` writes. -/
def postContextRow (dump : PostContext → String) (business_id : Nat)
    (sender_id : Option String) (post_context : PostContext) (t : Nat) : LogRow :=
  { business_id := business_id, customer := none, sender_id := sender_id
    incoming_text := some postContextMarker
    reply_text := some (dump post_context)
    direction := .incoming, error_message := none, created_at := t }

/-- `_store_post_context_in_conversation(business, sender_id, post_context)`.
`dump` stands for `json.dumps`; `t` is `timezone.now()`. -/
def _store_post_context_in_conversation (dump : PostContext → String) (db : DB)
    (business_id : Nat) (sender_id : Option String) (post_context : PostContext)
    (t : Nat) : DB :=
  { addCustomer db business_id sender_id with
    logs := (addCustomer db business_id sender_id).logs
      ++ [postContextRow dump business_id sender_id post_context t] }

/-- `_get_stored_post_context(business, sender_id)`: the most recent
`[POST_CONTEXT_STORED]` row of the pair within the last 10 minutes, its
`reply_text` passed through `json.loads` (`parse`; a failure there is caught
and yields `None`). -/
def _get_stored_post_context (parse : String → Option PostContext) (db : DB)
    (business_id : Nat) (sender_id : Option String) (now : Nat) :
    Option PostContext :=
  match (List.insertionSort createdAtGe (db.logs.filter (fun r =>
      r.business_id == business_id
        && r.sender_id == sender_id
        && r.incoming_text == some postContextMarker
        && now - 600 ≤ r.created_at))).head? with
  | none => none
  | some latest_log =>
    match latest_log.reply_text with
    | some s => parse s
    | none => none

/-! ### Event processing (`_process_messaging_event`, `_handle_webhook_message`) -/

/-- One Instagram messaging event, with the post context
`_extract_post_context` would derive from it (that extractor mixes Graph API
fetches into the parse, so its result is taken as input here). -/
structure PEvent where
  sender_id : Option String
  message_text : String
  post_context : Option PostContext
deriving Repr

/-- The result of `send_instagram_text_reply`, or an exception anywhere in
the generate-and-send `try` block. -/
inductive SendOutcome where
  | success
  | failure (err : String)
  | exc (err : String)
deriving DecidableEq, Repr

/-- `{db with logs := db.logs ++ [row]}`: one `MessageLog.objects.create`. -/
def appendLog (db : DB) (row : LogRow) : DB :=
  { db with logs := db.logs ++ [row] }

/-- The database after the optional post-context store (lines 581-583 of
`views.py`): `db1` of the pipeline. -/
def ctxStoreDB (dump : PostContext → String) (db : DB) (business_id : Nat)
    (sender_id : Option String) (pc : Option PostContext) (t : Nat) : DB :=
  match pc with
  | some ctx => _store_post_context_in_conversation dump db business_id sender_id ctx t
  | none => db

/-- The rows the optional post-context store appends. -/
def ctxStoreRows (dump : PostContext → String) (business_id : Nat)
    (sender_id : Option String) (pc : Option PostContext) (t : Nat) : List LogRow :=
  match pc with
  | some ctx => [postContextRow dump business_id sender_id ctx t]
  | none => []

/-- `f"user_{page_id}_{timezone.now().timestamp()}"`. -/
def fallbackSenderId (page_id : Option String) (t : Nat) : String :=
  "user_" ++ (match page_id with | some p => p | none => "None") ++ "_" ++ toString t

/-- The sender id after the fallback for a missing sender or one equal to
the page id. -/
def resolvedSenderId (event_sender page_id : Option String) (t : Nat) : String :=
  match event_sender with
  | some s => if some s == page_id || s = "" then fallbackSenderId page_id t else s
  | none => fallbackSenderId page_id t

/-- The inbound `MessageLog` row (line 612 of `views.py`). -/
def inboundLogRow (business_id : Nat) (sid text : String) (t : Nat) : LogRow :=
  { business_id := business_id, customer := none, sender_id := some sid
    incoming_text := some text, reply_text := none
    direction := .incoming, error_message := none, created_at := t + 1 }

/-- The outgoing `MessageLog` row: reply on success, reply plus error on a
failed send, error only when the generate-and-send block raised. -/
def outboundLogRow (business_id : Nat) (sid ai_response : String)
    (send : SendOutcome) (t : Nat) : LogRow :=
  match send with
  | .success =>
    { business_id := business_id, customer := some (business_id, some sid)
      sender_id := some sid, incoming_text := none
      reply_text := some ai_response, direction := .outgoing
      error_message := none, created_at := t + 2 }
  | .failure err =>
    { business_id := business_id, customer := some (business_id, some sid)
      sender_id := some sid, incoming_text := none
      reply_text := some ai_response, direction := .outgoing
      error_message := some err, created_at := t + 2 }
  | .exc err =>
    { business_id := business_id, customer := some (business_id, some sid)
      sender_id := some sid, incoming_text := none
      reply_text := none, direction := .outgoing
      error_message := some err, created_at := t + 2 }

/-- `final_post_context`: the event's own context, else the stored one. -/
def finalPostContext (parse : String → Option PostContext) (db1 : DB)
    (business_id : Nat) (event : PEvent) (t : Nat) : Option PostContext :=
  match event.post_context with
  | some ctx => some ctx
  | none => _get_stored_post_context parse db1 business_id event.sender_id t

/-- `_process_messaging_event(event, page_id)`.  Returns the updated database
and the `MessageLog` rows it appended, in creation order.  `dump`/`parse`
stand for `json.dumps`/`json.loads`, `ai` for `get_ai_response` applied to the
enhanced message, `send` for the Instagram send call, `t` for the clock
(successive writes get increasing `created_at`).  The `created` flag of
`Customer.objects.get_or_create` is checked against the customers after the
context store (appending a log row does not change the customer table). -/
def _process_messaging_event (dump : PostContext → String)
    (parse : String → Option PostContext) (ai : String → String)
    (send : SendOutcome) (db : DB) (event : PEvent) (page_id : Option String)
    (t : Nat) : DB × List LogRow :=
  match findBusinessByPage db page_id with
  | none => (db, [])
  | some business =>
    if !business.ai_enabled then (db, [])
    else if event.message_text = "" then
      (ctxStoreDB dump db business.id event.sender_id event.post_context t,
       ctxStoreRows dump business.id event.sender_id event.post_context t)
    else if !customerExists
          (ctxStoreDB dump db business.id event.sender_id event.post_context t)
          business.id (some (resolvedSenderId event.sender_id page_id t))
        && !business.allow_auto_reply_from_unknown then
      (addCustomer
        (appendLog (ctxStoreDB dump db business.id event.sender_id event.post_context t)
          (inboundLogRow business.id (resolvedSenderId event.sender_id page_id t)
            event.message_text t))
        business.id (some (resolvedSenderId event.sender_id page_id t)),
       ctxStoreRows dump business.id event.sender_id event.post_context t
         ++ [inboundLogRow business.id (resolvedSenderId event.sender_id page_id t)
              event.message_text t])
    else
      (appendLog
        (addCustomer
          (appendLog (ctxStoreDB dump db business.id event.sender_id event.post_context t)
            (inboundLogRow business.id (resolvedSenderId event.sender_id page_id t)
              event.message_text t))
          business.id (some (resolvedSenderId event.sender_id page_id t)))
        (outboundLogRow business.id (resolvedSenderId event.sender_id page_id t)
          (ai (_enhance_message_with_post_context event.message_text
            (finalPostContext parse
              (ctxStoreDB dump db business.id event.sender_id event.post_context t)
              business.id event t)))
          send t),
       ctxStoreRows dump business.id event.sender_id event.post_context t
         ++ [inboundLogRow business.id (resolvedSenderId event.sender_id page_id t)
              event.message_text t,
             outboundLogRow business.id (resolvedSenderId event.sender_id page_id t)
               (ai (_enhance_message_with_post_context event.message_text
                 (finalPostContext parse
                   (ctxStoreDB dump db business.id event.sender_id event.post_context t)
                   business.id event t)))
               send t])

/-- One element of the payload's `entry` list. -/
structure WebhookEntry where
  id : Option String
  messaging : List PEvent
deriving Repr

/-- The parsed webhook payload: its `entry` list (a payload without an
`entry` key processes nothing, like an empty list). -/
abbrev Payload := List WebhookEntry

/-- The HTTP outcome of `_handle_webhook_message`. -/
inductive WebhookResponse where
  | ok
  | invalidSignature
  | invalidJson
deriving DecidableEq, Repr

/-- Fold of `_process_messaging_event` over the payload's messaging events,
threading the database and the clock. -/
def processEntries (dump : PostContext → String) (parse : String → Option PostContext)
    (ai : String → String) (send : SendOutcome) (t : Nat) (db : DB)
    (entries : Payload) : DB × List LogRow :=
  match entries with
  | [] => (db, [])
  | entry :: rest =>
    let step := entry.messaging.foldl
      (fun (acc : DB × List LogRow) event =>
        let r := _process_messaging_event dump parse ai send acc.1 event entry.id
          (t + acc.2.length * 3)
        (r.1, acc.2 ++ r.2))
      (db, [])
    let tail := processEntries dump parse ai send (t + step.2.length * 3) step.1 rest
    (tail.1, step.2 ++ tail.2)

/-- `_handle_webhook_message(request)`.  `jsonParse` stands for
`json.loads` over the raw body; the signature header and raw body are the
inputs.  Returns the HTTP outcome, the final database and the rows created. -/
def _handle_webhook_message (hmacHex : String → String → String)
    (appSecret : Option String) (jsonParse : String → Option Payload)
    (dump : PostContext → String) (parse : String → Option PostContext)
    (ai : String → String) (send : SendOutcome) (db : DB)
    (body signature : String) (t : Nat) :
    WebhookResponse × DB × List LogRow :=
  if !verify_webhook_signature hmacHex appSecret body signature then
    (.invalidSignature, db, [])
  else
    match jsonParse body with
    | none => (.invalidJson, db, [])
    | some payload =>
      let r := processEntries dump parse ai send t db payload
      (.ok, r.1, r.2)

/-! ## Shared lemmas -/

theorem any_nil_isPrefixOf (l : List Char) :
    (suffixes l).any (fun t => List.isPrefixOf [] t) = true := by
  cases l <;> simp [suffixes, List.isPrefixOf]

theorem containsStr_empty (hay : String) : containsStr hay "" = true :=
  any_nil_isPrefixOf hay.data

theorem icontains_empty (field : String) : icontains field "" = true :=
  any_nil_isPrefixOf (pyLower field).data

theorem addCustomer_logs (db : DB) (business_id : Nat) (platform_id : Option String) :
    (addCustomer db business_id platform_id).logs = db.logs := by
  unfold addCustomer; split <;> rfl

theorem addCustomer_categories (db : DB) (business_id : Nat) (platform_id : Option String) :
    (addCustomer db business_id platform_id).categories = db.categories := by
  unfold addCustomer; split <;> rfl

/-- The head of a descending `created_at` sort is the unique newest row. -/
theorem head_insertionSort_newest (l : List LogRow) (r : LogRow) (hmem : r ∈ l)
    (hmax : ∀ x ∈ l, x ≠ r → x.created_at < r.created_at) :
    (List.insertionSort createdAtGe l).head? = some r := by
  have hsorted : (List.insertionSort createdAtGe l).Sorted createdAtGe :=
    List.sorted_insertionSort createdAtGe l
  have hmem' : r ∈ List.insertionSort createdAtGe l :=
    (List.mem_insertionSort createdAtGe).mpr hmem
  cases hs : List.insertionSort createdAtGe l with
  | nil => rw [hs] at hmem'; simp at hmem'
  | cons h tl =>
    rw [hs] at hmem' hsorted
    by_cases hrh : h = r
    · simp [hrh]
    · have hh : h ∈ l := by
        have : h ∈ List.insertionSort createdAtGe l := by rw [hs]; exact List.mem_cons_self h tl
        exact (List.mem_insertionSort createdAtGe).mp this
      have hrt : r ∈ tl := by
        rcases List.mem_cons.mp hmem' with h1 | h1
        · exact absurd h1.symm hrh
        · exact h1
      have hge : createdAtGe h r := List.rel_of_sorted_cons hsorted r hrt
      have hlt : h.created_at < r.created_at := hmax h hh hrh
      exact absurd hge (by unfold createdAtGe; omega)

/-- A list whose head is an incoming row puts an incoming row before every
outgoing one. -/
theorem inbound_first_of_head_incoming (a : LogRow) (l : List LogRow)
    (ha : a.direction = .incoming) :
    ∀ pre r suf, a :: l = pre ++ r :: suf → r.direction = .outgoing →
      ∃ q ∈ pre, q.direction = .incoming := by
  intro pre r suf heq hout
  cases pre with
  | nil =>
    simp only [List.nil_append, List.cons.injEq] at heq
    rw [heq.1] at ha
    rw [ha] at hout
    exact absurd hout (by intro h; cases h)
  | cons p ps =>
    simp only [List.cons_append, List.cons.injEq] at heq
    exact ⟨p, List.mem_cons_self p ps, heq.1 ▸ ha⟩

/-! ## Claim C7: global categories and `get_categories` -/

/-- A business and a single global category (owning business null). -/
def businessC7 : Business :=
  { id := 1, name := "Acme Store", active := true, ai_enabled := true
    allow_auto_reply_from_unknown := true, instagram_page_id := some "pg1" }

def globalCategoryC7 : Category :=
  { id := 5, name := "Shoes", business_id := none, is_global := true }

def dbC7 : DB :=
  { businesses := [businessC7], categories := [globalCategoryC7], products := []
    customers := [], logs := [] }

/-- C7: the claim says every global category (`business = null`) appears in
the `get_categories` result of every business.  The code reads
`business.categories.all()`, the reverse foreign key, which matches only
categories whose `business` equals this business — so the global category
`Shoes` (business null, `is_global` true) is absent from the result, which
comes back empty.  The model's own help text ("Global categories are
available to all businesses") says the opposite, so this is a code bug. -/
theorem get_categories_omits_global_category :
    globalCategoryC7.business_id = none ∧ globalCategoryC7.is_global = true ∧
    globalCategoryC7 ∈ dbC7.categories ∧
    _get_categories_data dbC7 businessC7 = .categoriesData [] 0 := by
  refine ⟨rfl, rfl, by decide, by decide⟩

/-! ## Claim C6: the tool menu -/

/-- C6 counterexample: the claim says the tool schema consists of exactly the
five catalog tools; the `functions` array actually defines six, the sixth
being `handle_yes_response`. -/
theorem functions_menu_has_sixth_tool :
    "handle_yes_response" ∈ functionsMenu.map ToolSpec.name ∧
    (functionsMenu.map ToolSpec.name).length = 6 ∧
    functionsMenu.map ToolSpec.name ≠
      ["get_categories", "get_products_by_category", "get_product_details",
       "search_products", "identify_product_from_post_context"] := by
  decide

/-- C6 amended: the menu lists six named tools — the five catalog operations
plus `handle_yes_response` — and `handle_yes_response` dispatches in
`_execute_function` exactly as `get_products_by_category` does, so the menu
mirrors the five catalog operations plus one alias of the second. -/
theorem functions_menu_six_tools (db : DB) (args : FuncArgs) (business_id : Nat) :
    functionsMenu.map ToolSpec.name =
      ["get_categories", "get_products_by_category", "get_product_details",
       "search_products", "handle_yes_response",
       "identify_product_from_post_context"] ∧
    _execute_function db "handle_yes_response" args business_id =
      _execute_function db "get_products_by_category" args business_id := by
  refine ⟨by decide, ?_⟩
  unfold _execute_function
  cases findBusinessById db business_id <;> rfl

/-! ## Claim C8: `search_products` -/

/-- C8: for every business and term, `search_products` returns at most 10
dictionaries; each comes from a product of that business that is active and
matches the term case-insensitively in name or description; and the result
is ordered by name (lexicographically on the name's characters). -/
theorem search_products_bounded_active_sorted (db : DB) (b : Business) (term : String) :
    ∃ ps, _search_products_data db b term = .searchResults term ps ps.length ∧
      ps.length ≤ 10 ∧
      (∀ e ∈ ps, ∃ p, p ∈ db.products ∧ p.business_id = b.id ∧ p.active = true ∧
        (icontains p.name term = true ∨ icontains p.description term = true) ∧
        e = toSearchProductEntry db p) ∧
      ps.Pairwise (fun e₁ e₂ => charListLe e₁.name.data e₂.name.data = true) := by
  refine ⟨(searchQuery db b term).map (toSearchProductEntry db), rfl, ?_, ?_, ?_⟩
  · simp only [List.length_map, searchQuery, List.length_take]
    omega
  · intro e he
    simp only [List.mem_map] at he
    obtain ⟨p, hp, rfl⟩ := he
    have hp2 := List.take_subset _ _ hp
    rw [List.mem_insertionSort] at hp2
    rw [List.mem_filter] at hp2
    obtain ⟨hmem, hpred⟩ := hp2
    simp only [Bool.and_eq_true, Bool.or_eq_true, beq_iff_eq] at hpred
    exact ⟨p, hmem, hpred.1.1, hpred.2, hpred.1.2, rfl⟩
  · have hs : (searchQuery db b term).Pairwise prodNameRel :=
      List.Pairwise.sublist (List.take_sublist _ _)
        (List.sorted_insertionSort prodNameRel _)
    rw [List.pairwise_map]
    exact hs.imp (fun h => h)

/-! ## Claim C10: total tool dispatch -/

theorem searchQuery_empty_term (db : DB) (b : Business) :
    searchQuery db b "" =
      (List.insertionSort prodNameRel (businessActiveProducts db b)).take 10 := by
  unfold searchQuery businessActiveProducts
  have h : db.products.filter (fun p =>
        p.business_id == b.id
          && (icontains p.name "" || icontains p.description "")
          && p.active) =
      db.products.filter (fun p => p.business_id == b.id && p.active) := by
    refine List.filter_congr ?_
    intro p _
    rw [icontains_empty, icontains_empty]
    simp
  rw [h]

/-- C10: `_execute_function` is total over model-supplied input — a missing
business yields the caught-exception error dictionary, an unknown function
name the unknown-function error dictionary; a missing argument defaults to
the empty string, and `search_products` with the empty term returns the
first 10 of the business's active products ordered by name (every product
matches the empty substring). -/
theorem execute_function_total (db : DB) (fname : String) (args : FuncArgs)
    (business_id : Nat) :
    (findBusinessById db business_id = none →
      _execute_function db fname args business_id = .error errBusinessMissing) ∧
    (∀ b, findBusinessById db business_id = some b →
      fname ∉ functionsMenu.map ToolSpec.name →
      _execute_function db fname args business_id =
        .error ("Unknown function: " ++ fname)) ∧
    (args.find? (fun kv => kv.1 == "search_term") = none →
      getArg args "search_term" = "") ∧
    (∀ b, findBusinessById db business_id = some b →
      _execute_function db "search_products" args business_id =
        _search_products_data db b (getArg args "search_term")) ∧
    (∀ b, ∃ ps, _search_products_data db b "" = .searchResults "" ps ps.length ∧
      ps = ((List.insertionSort prodNameRel (businessActiveProducts db b)).take 10).map
        (toSearchProductEntry db) ∧ ps.length ≤ 10) := by
  refine ⟨?_, ?_, ?_, ?_, ?_⟩
  · intro h
    unfold _execute_function
    rw [h]
  · intro b hb hname
    simp only [functionsMenu, List.map_cons, List.map_nil, List.mem_cons,
      List.not_mem_nil, or_false, not_or] at hname
    obtain ⟨h1, h2, h3, h4, h5, h6⟩ := hname
    unfold _execute_function
    rw [hb]
    simp only [if_neg h1, if_neg h2, if_neg h3, if_neg h4, if_neg h5, if_neg h6]
  · intro h
    unfold getArg
    rw [h]
  · intro b hb
    unfold _execute_function
    rw [hb]
    rfl
  · intro b
    refine ⟨(searchQuery db b "").map (toSearchProductEntry db), rfl, ?_, ?_⟩
    · rw [searchQuery_empty_term]
    · simp only [List.length_map, searchQuery_empty_term, List.length_take]
      omega

/-- A sample active business with AI enabled, and a database holding it. -/
def sampleBusiness : Business :=
  { id := 1, name := "Acme", active := true, ai_enabled := true
    allow_auto_reply_from_unknown := true, instagram_page_id := none }

def sampleDB : DB :=
  { businesses := [sampleBusiness], categories := [], products := []
    customers := [], logs := [] }

def emptyDB : DB :=
  { businesses := [], categories := [], products := [], customers := [], logs := [] }

/-- C10 witness: the hypotheses of `execute_function_total` discharged at a
concrete database — an unknown tool name and a missing `search_term`. -/
theorem execute_function_total_witness :
    _execute_function sampleDB "frobnicate" [] 1 =
      .error ("Unknown function: " ++ "frobnicate") ∧
    getArg [] "search_term" = "" := by
  constructor
  · exact (execute_function_total sampleDB "frobnicate" [] 1).2.1 sampleBusiness
      (by decide) (by decide)
  · exact (execute_function_total emptyDB "frobnicate" [] 1).2.2.1 rfl

/-! ## Claim C2: failure semantics of `get_ai_response` -/

/-- C2 counterexample: the claim says a missing or inactive business resolves
to the single fixed fallback sentence.  It resolves to a different fixed
sentence (`businessUnavailableResponse`), even with a configured key and a
healthy model. -/
theorem missing_business_not_fallback :
    get_ai_response (some "key") (.ok "hi there") emptyDB
        1 "hello" none 0 = businessUnavailableResponse ∧
    businessUnavailableResponse ≠ _get_fallback_response := by
  constructor
  · rfl
  · decide

/-- C2 amended: `get_ai_response` never raises (it is total); an empty or
whitespace-only message returns the fixed empty-message sentence; a missing
or inactive business returns the fixed business-information sentence (not
the fallback); a missing API key, and any exception raised during the model
interaction, return the fixed fallback sentence; on success the model's
content is returned stripped. -/
theorem get_ai_response_failure_modes (apiKey : Option String) (outcome : ModelOutcome)
    (db : DB) (business_id : Nat) (customer_message : String)
    (sender_id : Option String) (now : Nat) :
    (pyStrip customer_message = "" →
      get_ai_response apiKey outcome db business_id customer_message sender_id now =
        emptyMessageResponse) ∧
    (pyStrip customer_message ≠ "" → findBusinessById db business_id = none →
      get_ai_response apiKey outcome db business_id customer_message sender_id now =
        businessUnavailableResponse) ∧
    (∀ b, pyStrip customer_message ≠ "" → findBusinessById db business_id = some b →
      apiKey = none →
      get_ai_response apiKey outcome db business_id customer_message sender_id now =
        _get_fallback_response) ∧
    (∀ b k e, pyStrip customer_message ≠ "" → findBusinessById db business_id = some b →
      apiKey = some k → outcome = .error e →
      get_ai_response apiKey outcome db business_id customer_message sender_id now =
        _get_fallback_response) ∧
    (∀ b k r, pyStrip customer_message ≠ "" → findBusinessById db business_id = some b →
      apiKey = some k → outcome = .ok r →
      get_ai_response apiKey outcome db business_id customer_message sender_id now =
        pyStrip r) := by
  refine ⟨?_, ?_, ?_, ?_, ?_⟩
  · intro h
    unfold get_ai_response
    rw [if_pos h]
  · intro h hb
    unfold get_ai_response
    rw [if_neg h, hb]
  · intro b h hb hk
    unfold get_ai_response
    rw [if_neg h, hb, hk]
    rfl
  · intro b k e h hb hk ho
    unfold get_ai_response
    rw [if_neg h, hb, hk, ho]
    rfl
  · intro b k r h hb hk ho
    unfold get_ai_response
    rw [if_neg h, hb, hk, ho]
    rfl

/-- C2 witness: the failure paths of `get_ai_response_failure_modes`
exercised at concrete inputs. -/
theorem get_ai_response_failure_modes_witness :
    get_ai_response none (.ok "hi") sampleDB 1 "hello" none 0 = _get_fallback_response ∧
    get_ai_response (some "k") (.error "boom") sampleDB 1 "hello" none 0 =
      _get_fallback_response := by
  constructor
  · exact (get_ai_response_failure_modes none (.ok "hi") sampleDB 1 "hello" none
      0).2.2.1 sampleBusiness (by decide) (by decide) rfl
  · exact (get_ai_response_failure_modes (some "k") (.error "boom") sampleDB 1 "hello"
      none 0).2.2.2.1 sampleBusiness "k" "boom" (by decide) (by decide) rfl rfl

/-! ## Claim C4: two-phase post-caption product identification -/

/-- A product whose name has no word longer than 3 characters but whose
description contains `comfort`. -/
def productC4 : Product :=
  { id := 1, business_id := 1, category_id := none, sku := some "S1", name := "X1"
    description := "great comfort", price_usd := 100, price_lbp := none, stock := 5
    metadata := none, active := true }

def dbC4 : DB :=
  { businesses := [sampleBusiness], categories := [], products := [productC4]
    customers := [], logs := [] }

def entryC4 : IdentifyEntry := toKeywordEntry dbC4 (productC4, "comfort")

/-- C4 counterexample: the claim says phase 2 returns a deduplicated list.
With the caption `comfort comfort` (the keyword appears twice) and the single
matching product `X1`, the keyword loop appends the product once per caption
word and the result holds the same entry twice — no deduplication happens. -/
theorem identify_keyword_matches_not_deduplicated :
    _identify_product_from_post_context dbC4 sampleBusiness "comfort comfort" "price?" =
      .identifyFound [entryC4, entryC4] "comfort comfort" "price?"
        "Found 2 product(s) matching keywords from the post caption" ∧
    ¬ ([entryC4, entryC4] : List IdentifyEntry).Nodup := by
  exact ⟨by decide, by decide⟩

/-- C4 amended: the two-phase structure holds as claimed — phase 1 matches a
product when its lower-cased full name, or any of its name's words longer
than 3 characters, is contained in the lower-cased caption; phase 2 runs only
when phase 1 found nothing, matching caption words longer than 3 characters
against names/descriptions (up to 3 products per keyword), truncating to at
most 5 results each tagged with its keyword; found=false with the
specify-the-product message when both phases are empty.  But the phase-2 list
is not deduplicated: one product may appear once per matching keyword. -/
theorem identify_two_phase (db : DB) (b : Business) (post_caption user_message : String) :
    (∀ p, p ∈ phase1Matches db b post_caption ↔
      (p ∈ db.products ∧ p.business_id = b.id ∧ p.active = true ∧
        (containsStr (pyLower post_caption) (pyLower p.name) = true ∨
         ∃ w ∈ pySplitWs (pyLower p.name), 3 < w.length ∧
           containsStr (pyLower post_caption) w = true))) ∧
    (phase1Matches db b post_caption ≠ [] →
      _identify_product_from_post_context db b post_caption user_message =
        .identifyFound ((phase1Matches db b post_caption).map (toIdentifyEntry db))
          post_caption user_message
          ("Found "
            ++ toString ((phase1Matches db b post_caption).map (toIdentifyEntry db)).length
            ++ " product(s) mentioned in the post caption")) ∧
    (phase1Matches db b post_caption = [] → phase2Matches db b post_caption ≠ [] →
      ∃ ps, _identify_product_from_post_context db b post_caption user_message =
        .identifyFound ps post_caption user_message
          ("Found "
            ++ toString ((phase2Matches db b post_caption).map (toKeywordEntry db)).length
            ++ " product(s) matching keywords from the post caption") ∧
        ps.length ≤ 5 ∧
        (∀ e ∈ ps, ∃ pw, pw ∈ phase2Matches db b post_caption ∧
          e = toKeywordEntry db pw ∧
          pw.2 ∈ findWords (pyLower post_caption) ∧ 3 < pw.2.length ∧
          pw.1 ∈ db.products ∧ pw.1.business_id = b.id ∧ pw.1.active = true ∧
          (icontains pw.1.name pw.2 = true ∨ icontains pw.1.description pw.2 = true) ∧
          e.match_reason =
            some ("Keyword '" ++ pw.2 ++ "' found in product name or description"))) ∧
    (phase1Matches db b post_caption = [] → phase2Matches db b post_caption = [] →
      _identify_product_from_post_context db b post_caption user_message =
        .identifyNotFound post_caption user_message
          "No products found matching the post caption. Please specify the product name.") := by
  refine ⟨?_, ?_, ?_, ?_⟩
  · intro p
    simp only [phase1Matches, businessActiveProducts, List.mem_filter,
      Bool.and_eq_true, Bool.or_eq_true, beq_iff_eq, List.any_eq_true,
      decide_eq_true_eq]
    tauto
  · intro hne
    have hmp : (phase1Matches db b post_caption).map (toIdentifyEntry db) ≠ [] := by
      simpa [List.map_eq_nil_iff] using hne
    unfold _identify_product_from_post_context
    rw [if_pos hmp]
  · intro h1 h2
    have hmp : ¬ ((phase1Matches db b post_caption).map (toIdentifyEntry db) ≠ []) := by
      simp [h1]
    have hkw : (phase2Matches db b post_caption).map (toKeywordEntry db) ≠ [] := by
      simpa [List.map_eq_nil_iff] using h2
    refine ⟨((phase2Matches db b post_caption).map (toKeywordEntry db)).take 5, ?_, ?_, ?_⟩
    · unfold _identify_product_from_post_context
      rw [if_neg hmp, if_pos hkw]
    · simp only [List.length_take, List.length_map]
      omega
    · intro e he
      have he' := List.take_subset _ _ he
      simp only [List.mem_map] at he'
      obtain ⟨pw, hpw, rfl⟩ := he'
      refine ⟨pw, hpw, rfl, ?_⟩
      unfold phase2Matches at hpw
      rw [List.mem_flatMap] at hpw
      obtain ⟨word, hword, hpw⟩ := hpw
      by_cases hlen : 3 < word.length
      · rw [if_pos hlen] at hpw
        simp only [List.mem_map] at hpw
        obtain ⟨p, hp, rfl⟩ := hpw
        have hp' := List.take_subset _ _ hp
        rw [List.mem_filter] at hp'
        obtain ⟨hmem, hpred⟩ := hp'
        simp only [Bool.and_eq_true, Bool.or_eq_true, beq_iff_eq] at hpred
        exact ⟨hword, hlen, hmem, hpred.1.1, hpred.2, hpred.1.2, rfl⟩
      · rw [if_neg hlen] at hpw
        simp at hpw
  · intro h1 h2
    unfold _identify_product_from_post_context
    rw [if_neg (by simp [h1]), if_neg (by simp [h2])]

/-- C4 witness: both phases empty on an empty catalog, giving the
specify-the-product message. -/
theorem identify_two_phase_witness :
    _identify_product_from_post_context emptyDB sampleBusiness "zzz" "price?" =
      .identifyNotFound "zzz" "price?"
        "No products found matching the post caption. Please specify the product name." :=
  (identify_two_phase emptyDB sampleBusiness "zzz" "price?").2.2.2 (by decide) (by decide)

/-! ## Claim C3: the history slice sent to the model -/

/-- An incoming-only log row of business 1, sender `s`. -/
def rowC3 (n : Nat) (txt : String) : LogRow :=
  { business_id := 1, customer := none, sender_id := some "s"
    incoming_text := some txt, reply_text := none, direction := .incoming
    error_message := none, created_at := n }

/-- Four rows inside the 2-hour window, `m4` the most recent. -/
def dbC3 : DB :=
  { businesses := [], categories := [], products := [], customers := []
    logs := [rowC3 3000 "m1", rowC3 4000 "m2", rowC3 5000 "m3", rowC3 6000 "m4"] }

/-- C3 counterexample: the claim says the turns passed to the model come from
the 3 most recently created rows of the window.  With four rows in the
window, the slice `query[:3]` of the ascending ordering keeps the three
OLDEST rows: the model sees `m1, m2, m3` — `m1` is not among the 3 most
recent rows, and `m4`, the newest, is absent. -/
theorem history_from_oldest_not_newest :
    modelHistoryTurns dbC3 1 (some "s") 10000 =
      [{ role := "user", content := "m1" }, { role := "user", content := "m2" },
       { role := "user", content := "m3" }] ∧
    ({ role := "user", content := "m4" } : ChatTurn) ∉
      modelHistoryTurns dbC3 1 (some "s") 10000 ∧
    (∀ r ∈ dbC3.logs, 10000 - 7200 ≤ r.created_at) := by
  decide

/-- C3 amended: the turns passed to the model are at most 3 and are
reconstructed, oldest first, from an initial segment of at most 3 rows of
the window's ascending ordering — rows no newer than every other row of the
window (the 3 oldest), not the 3 most recent. -/
theorem history_turns_from_three_oldest (db : DB) (business_id : Nat)
    (sender_id : Option String) (now : Nat) :
    (modelHistoryTurns db business_id sender_id now).length ≤ 3 ∧
    ∃ pre suf, historyQuery db business_id sender_id now = pre ++ suf ∧
      pre.length ≤ 3 ∧
      (∀ a ∈ pre, ∀ c ∈ suf, a.created_at ≤ c.created_at) ∧
      modelHistoryTurns db business_id sender_id now = lastSlice (turnsOf pre) 3 ∧
      (∀ t ∈ modelHistoryTurns db business_id sender_id now,
        ∃ r ∈ pre, (t.role = "user" ∧ r.incoming_text = some t.content) ∨
          (t.role = "assistant" ∧ r.reply_text = some t.content)) := by
  constructor
  · simp only [modelHistoryTurns, lastSlice, List.length_drop]
    omega
  · refine ⟨(historyQuery db business_id sender_id now).take 3,
      (historyQuery db business_id sender_id now).drop 3,
      (List.take_append_drop 3 _).symm, ?_, ?_, rfl, ?_⟩
    · simp only [List.length_take]
      omega
    · have hs : (historyQuery db business_id sender_id now).Pairwise createdAtLe := by
        unfold historyQuery
        exact List.sorted_insertionSort createdAtLe _
      rw [← List.take_append_drop 3 (historyQuery db business_id sender_id now)] at hs
      rcases List.pairwise_append.mp hs with ⟨_, _, hcross⟩
      intro a ha c hc
      exact hcross a ha c hc
    · intro t ht
      have ht' : t ∈ turnsOf ((historyQuery db business_id sender_id now).take 3) :=
        List.drop_subset _ _ ht
      unfold turnsOf at ht'
      rw [List.mem_flatMap] at ht'
      obtain ⟨r, hr, hmem⟩ := ht'
      refine ⟨r, hr, ?_⟩
      rcases List.mem_append.mp hmem with h | h
      · cases hin : r.incoming_text with
        | none => simp only [hin] at h; simp at h
        | some txt =>
          simp only [hin] at h
          by_cases hne : txt ≠ ""
          · rw [if_pos hne] at h
            simp only [List.mem_singleton] at h
            subst h
            exact Or.inl ⟨rfl, by simp [hin]⟩
          · rw [if_neg hne] at h
            simp at h
      · cases hre : r.reply_text with
        | none => simp only [hre] at h; simp at h
        | some txt =>
          simp only [hre] at h
          by_cases hne : txt ≠ ""
          · rw [if_pos hne] at h
            simp only [List.mem_singleton] at h
            subst h
            exact Or.inr ⟨rfl, by simp [hre]⟩
          · rw [if_neg hne] at h
            simp at h

/-- C3 witness: the slice bound exercised on the concrete four-row window. -/
theorem history_turns_from_three_oldest_witness :
    (modelHistoryTurns dbC3 1 (some "s") 10000).length ≤ 3 :=
  (history_turns_from_three_oldest dbC3 1 (some "s") 10000).1

/-! ## Claim C9: post-context round trip -/

theorem store_logs (dump : PostContext → String) (db : DB) (business_id : Nat)
    (sender_id : Option String) (ctx : PostContext) (t : Nat) :
    (_store_post_context_in_conversation dump db business_id sender_id ctx t).logs =
      db.logs ++ [postContextRow dump business_id sender_id ctx t] := by
  unfold _store_post_context_in_conversation
  simp [addCustomer_logs]

/-- C9: enhancing a message with a caption-only post context wraps the
literal caption in the bracketed `[Post caption: ...]` marker; and whenever
`json.loads` inverts `json.dumps` on the record (`parse (dump ctx) = some
ctx`, true of the dictionaries the extractor builds), storing a context and
retrieving it within the 10-minute window — with no newer marker row for the
pair — returns the identical record. -/
theorem post_context_roundtrip :
    (∀ (message_text caption : String),
      ∃ s t, _enhance_message_with_post_context message_text
          (some { post_caption := some caption }) =
        s ++ ("[Post caption: " ++ caption ++ "]") ++ t) ∧
    (∀ (dump : PostContext → String) (parse : String → Option PostContext)
      (db : DB) (business_id : Nat) (sender_id : Option String)
      (ctx : PostContext) (t now : Nat),
      parse (dump ctx) = some ctx →
      now - 600 ≤ t →
      (∀ r ∈ db.logs, r.business_id = business_id → r.sender_id = sender_id →
        r.incoming_text = some postContextMarker → r.created_at < t) →
      _get_stored_post_context parse
        (_store_post_context_in_conversation dump db business_id sender_id ctx t)
        business_id sender_id now = some ctx) := by
  constructor
  · intro message_text caption
    refine ⟨message_text ++ " ", " " ++ postContextInstruction, ?_⟩
    simp only [_enhance_message_with_post_context, joinSpace, List.cons_append,
      List.nil_append, String.append_assoc]
  · intro dump parse db business_id sender_id ctx t now hparse hwin hmax
    unfold _get_stored_post_context
    rw [store_logs, List.filter_append]
    have hrow : List.filter (fun r =>
        r.business_id == business_id
          && r.sender_id == sender_id
          && r.incoming_text == some postContextMarker
          && now - 600 ≤ r.created_at)
        [postContextRow dump business_id sender_id ctx t] =
        [postContextRow dump business_id sender_id ctx t] := by
      simp [postContextRow]
      omega
    rw [hrow]
    have hhead := head_insertionSort_newest
      (List.filter (fun r =>
        r.business_id == business_id
          && r.sender_id == sender_id
          && r.incoming_text == some postContextMarker
          && now - 600 ≤ r.created_at) db.logs
        ++ [postContextRow dump business_id sender_id ctx t])
      (postContextRow dump business_id sender_id ctx t)
      (List.mem_append_right _ (List.mem_singleton.mpr rfl))
      (by
        intro x hx hne
        rcases List.mem_append.mp hx with hxl | hxr
        · rw [List.mem_filter] at hxl
          obtain ⟨hxmem, hxpred⟩ := hxl
          simp only [Bool.and_eq_true, beq_iff_eq, decide_eq_true_eq] at hxpred
          exact hmax x hxmem hxpred.1.1.1 hxpred.1.1.2 hxpred.1.2
        · exact absurd (List.mem_singleton.mp hxr) hne)
    rw [hhead]
    simpa [postContextRow] using hparse

/-- C9 witness: the round trip at a concrete caption-only context, a trivial
serialiser pair satisfying the inversion hypothesis, and an empty log. -/
theorem post_context_roundtrip_witness :
    _get_stored_post_context (fun _ => some { post_caption := some "hello" })
      (_store_post_context_in_conversation (fun _ => "j") emptyDB 1 (some "u")
        { post_caption := some "hello" } 100)
      1 (some "u") 100 = some { post_caption := some "hello" } :=
  post_context_roundtrip.2 (fun _ => "j") (fun _ => some { post_caption := some "hello" })
    emptyDB 1 (some "u") { post_caption := some "hello" } 100 100
    rfl (by decide) (by intro r hr; simp [emptyDB] at hr)

/-! ## Claim C5: webhook signature gate -/

/-- C5: with a configured (non-empty) app secret, a request whose header
signature — its `sha256=` scheme tag removed — differs from the body's
HMAC-SHA256 hex digest is answered with the authorization failure and
creates no `MessageLog` row and leaves the database untouched; acceptance
happens only when the stripped header equals the digest; and with no secret
configured, verification is skipped — the outcome does not depend on the
signature at all.  (The `hmac.compare_digest` call is functionally string
equality; its constant-time execution is a timing property outside the
embedding.) -/
theorem webhook_signature_gate (hmacHex : String → String → String)
    (jsonParse : String → Option Payload) (dump : PostContext → String)
    (parse : String → Option PostContext) (ai : String → String)
    (send : SendOutcome) (db : DB) (body : String) (t : Nat) :
    (∀ secret signature, secret ≠ "" →
      (if pyStartsWith signature "sha256=" then pyDrop signature 7 else signature) ≠
        hmacHex secret body →
      _handle_webhook_message hmacHex (some secret) jsonParse dump parse ai send db
        body signature t = (.invalidSignature, db, [])) ∧
    (∀ secret signature,
      verify_webhook_signature hmacHex (some secret) body signature = true →
      secret ≠ "" →
      (if pyStartsWith signature "sha256=" then pyDrop signature 7 else signature) =
        hmacHex secret body) ∧
    (∀ signature₁ signature₂,
      _handle_webhook_message hmacHex none jsonParse dump parse ai send db body
        signature₁ t =
      _handle_webhook_message hmacHex none jsonParse dump parse ai send db body
        signature₂ t) := by
  refine ⟨?_, ?_, ?_⟩
  · intro secret signature hsec hneq
    have hv : verify_webhook_signature hmacHex (some secret) body signature = false := by
      simp only [verify_webhook_signature]
      rw [if_neg hsec]
      exact beq_eq_false_iff_ne.mpr hneq
    unfold _handle_webhook_message
    rw [hv]
    rfl
  · intro secret signature hv hsec
    simp only [verify_webhook_signature] at hv
    rw [if_neg hsec] at hv
    exact eq_of_beq hv
  · intro signature₁ signature₂
    rfl

/-- C5 witness: a concrete mismatching signature is rejected with no rows
written. -/
theorem webhook_signature_gate_witness :
    _handle_webhook_message (fun _ _ => "aa") (some "s") (fun _ => none) (fun _ => "d")
      (fun _ => none) (fun m => m) .success emptyDB "body" "zz" 0 =
      (.invalidSignature, emptyDB, []) :=
  (webhook_signature_gate (fun _ _ => "aa") (fun _ => none) (fun _ => "d")
    (fun _ => none) (fun m => m) .success emptyDB "body" 0).1 "s" "zz"
    (by decide) (by decide)

/-! ## Claim C1: inbound rows precede outgoing rows -/

theorem outboundLogRow_direction (business_id : Nat) (sid ai_response : String)
    (send : SendOutcome) (t : Nat) :
    (outboundLogRow business_id sid ai_response send t).direction = .outgoing := by
  cases send <;> rfl

/-- Every row list `_process_messaging_event` can return is either empty or
headed by an incoming row. -/
theorem process_rows_head (dump : PostContext → String)
    (parse : String → Option PostContext) (ai : String → String) (send : SendOutcome)
    (db : DB) (event : PEvent) (page_id : Option String) (t : Nat) :
    (_process_messaging_event dump parse ai send db event page_id t).2 = [] ∨
    ∃ r rest, (_process_messaging_event dump parse ai send db event page_id t).2 =
      r :: rest ∧ r.direction = .incoming := by
  unfold _process_messaging_event
  cases hfind : findBusinessByPage db page_id with
  | none => simp
  | some business =>
    simp only []
    by_cases hai : business.ai_enabled
    · simp only [hai, Bool.not_true, Bool.false_eq_true, if_false]
      by_cases hmt : event.message_text = ""
      · rw [if_pos hmt]
        cases hpc : event.post_context with
        | none => left; rfl
        | some ctx => right; exact ⟨_, _, rfl, rfl⟩
      · rw [if_neg hmt]
        cases hpc : event.post_context with
        | none =>
          right
          split
          · exact ⟨_, _, rfl, rfl⟩
          · exact ⟨_, _, rfl, rfl⟩
        | some ctx =>
          right
          split
          · exact ⟨_, _, rfl, rfl⟩
          · exact ⟨_, _, rfl, rfl⟩
    · left
      simp [hai]

theorem blocks_of_all_incoming (l : List LogRow)
    (h : ∀ q ∈ l, q.direction = .incoming) :
    ∃ ins outs, l = ins ++ outs ∧ (∀ q ∈ ins, q.direction = .incoming) ∧
      (∀ q ∈ outs, q.direction = .outgoing) :=
  ⟨l, [], (List.append_nil l).symm, h, by simp⟩

theorem blocks_append_out (l : List LogRow) (r : LogRow)
    (h : ∀ q ∈ l, q.direction = .incoming) (hr : r.direction = .outgoing) :
    ∃ ins outs, l ++ [r] = ins ++ outs ∧ (∀ q ∈ ins, q.direction = .incoming) ∧
      (∀ q ∈ outs, q.direction = .outgoing) :=
  ⟨l, [r], rfl, h, by simpa using hr⟩

/-- The rows of one processed event split into a block of incoming rows
followed by a block of outgoing rows: every inbound row is created before
every outgoing row. -/
theorem process_rows_blocks (dump : PostContext → String)
    (parse : String → Option PostContext) (ai : String → String) (send : SendOutcome)
    (db : DB) (event : PEvent) (page_id : Option String) (t : Nat) :
    ∃ ins outs,
      (_process_messaging_event dump parse ai send db event page_id t).2 =
        ins ++ outs ∧
      (∀ q ∈ ins, q.direction = .incoming) ∧
      (∀ q ∈ outs, q.direction = .outgoing) := by
  unfold _process_messaging_event
  cases hfind : findBusinessByPage db page_id with
  | none => exact blocks_of_all_incoming [] (by simp)
  | some business =>
    simp only []
    by_cases hai : business.ai_enabled
    · simp only [hai, Bool.not_true, Bool.false_eq_true, if_false]
      by_cases hmt : event.message_text = ""
      · rw [if_pos hmt]
        cases hpc : event.post_context with
        | none => exact blocks_of_all_incoming _ (by simp [ctxStoreRows])
        | some ctx =>
          exact blocks_of_all_incoming _ (by simp [ctxStoreRows, postContextRow])
      · rw [if_neg hmt]
        cases hpc : event.post_context with
        | none =>
          split
          · exact blocks_of_all_incoming _
              (by simp [ctxStoreRows, inboundLogRow])
          · rw [show ∀ a b : LogRow, ([a, b] : List LogRow) = [a] ++ [b] from
              fun a b => rfl, ← List.append_assoc]
            exact blocks_append_out _ _
              (by simp [ctxStoreRows, inboundLogRow])
              (outboundLogRow_direction _ _ _ _ _)
        | some ctx =>
          split
          · exact blocks_of_all_incoming _
              (by simp [ctxStoreRows, postContextRow, inboundLogRow])
          · rw [show ∀ a b : LogRow, ([a, b] : List LogRow) = [a] ++ [b] from
              fun a b => rfl, ← List.append_assoc]
            exact blocks_append_out _ _
              (by simp [ctxStoreRows, postContextRow, inboundLogRow])
              (outboundLogRow_direction _ _ _ _ _)
    · have hfalse : business.ai_enabled = false := by
        cases h : business.ai_enabled
        · rfl
        · exact absurd h hai
      rw [hfalse]
      exact ⟨[], [], rfl, by simp, by simp⟩

/-- A concrete post-context event for the counterexample: business known,
active and AI-enabled, signature verification skipped (no secret), one
messaging event replying to a post. -/
def businessC1 : Business :=
  { id := 1, name := "Acme", active := true, ai_enabled := true
    allow_auto_reply_from_unknown := true, instagram_page_id := some "pg" }

def dbC1 : DB :=
  { businesses := [businessC1], categories := [], products := [], customers := []
    logs := [] }

def eventC1 : PEvent :=
  { sender_id := some "u1", message_text := "price?"
    post_context := some { post_caption := some "New drop" } }

def payloadC1 : Payload := [{ id := some "pg", messaging := [eventC1] }]

/-- The full webhook handler run on the post-context event. -/
def handlerOutC1 : WebhookResponse × DB × List LogRow :=
  _handle_webhook_message (fun _ _ => "h") none (fun _ => some payloadC1)
    (fun _ => "ctxjson") (fun _ => none) (fun _ => "reply") .success dbC1
    "body" "sig" 100

/-- C1 counterexample: the claim says processing an accepted event of a known
active business creates exactly one inbound `MessageLog` row.  An event that
carries post context first stores a `[POST_CONTEXT_STORED]` marker row with
`direction='incoming'` and then the regular inbound row — two inbound rows
for one event (and one outgoing row). -/
theorem two_inbound_rows_on_post_context_event :
    handlerOutC1.1 = .ok ∧
    (handlerOutC1.2.2.filter (fun r => r.direction == .incoming)).length = 2 ∧
    (handlerOutC1.2.2.filter (fun r => r.direction == .outgoing)).length = 1 := by
  refine ⟨rfl, ?_, ?_⟩ <;> decide

/-- C1 amended: the rows of one processed event are a block of inbound rows
followed by a block of outgoing rows, so every inbound row is created before
every outgoing row; no outgoing row is ever created without a preceding
inbound row (a crash mid-pipeline can only lose the outgoing side); and for
an accepted event of a known active AI-enabled business with non-empty text
the processing creates exactly one regular inbound row — plus one additional
inbound post-context marker row when the event carries post context — and at
most one outgoing row. -/
theorem inbound_before_outgoing (dump : PostContext → String)
    (parse : String → Option PostContext) (ai : String → String) (send : SendOutcome)
    (db : DB) (event : PEvent) (page_id : Option String) (t : Nat) :
    (∃ ins outs,
      (_process_messaging_event dump parse ai send db event page_id t).2 =
        ins ++ outs ∧
      (∀ q ∈ ins, q.direction = .incoming) ∧
      (∀ q ∈ outs, q.direction = .outgoing)) ∧
    (∀ pre r suf,
      (_process_messaging_event dump parse ai send db event page_id t).2 =
        pre ++ r :: suf →
      r.direction = .outgoing → ∃ q ∈ pre, q.direction = .incoming) ∧
    (∀ b, findBusinessByPage db page_id = some b → b.ai_enabled = true →
      event.message_text ≠ "" →
      ((_process_messaging_event dump parse ai send db event page_id t).2.filter
          (fun r => r.direction == .incoming)).length =
        (if event.post_context.isSome then 2 else 1) ∧
      ((_process_messaging_event dump parse ai send db event page_id t).2.filter
          (fun r => r.direction == .outgoing)).length ≤ 1) := by
  refine ⟨process_rows_blocks dump parse ai send db event page_id t, ?_, ?_⟩
  · intro pre r suf heq hout
    rcases process_rows_head dump parse ai send db event page_id t with h | ⟨r0, rest, hsh, hdir⟩
    · rw [h] at heq
      exact absurd heq.symm (by simp)
    · rw [hsh] at heq
      exact inbound_first_of_head_incoming r0 rest hdir pre r suf heq hout
  · intro b hfind hai hmt
    unfold _process_messaging_event
    rw [hfind]
    simp only [hai, Bool.not_true, Bool.false_eq_true, if_false, if_neg hmt]
    cases hpc : event.post_context with
    | none =>
      split
      · constructor <;> simp [ctxStoreRows, inboundLogRow, List.filter_append]
      · cases send <;> constructor <;>
          simp [ctxStoreRows, inboundLogRow, outboundLogRow, List.filter_append]
    | some ctx =>
      split
      · constructor <;>
          simp [ctxStoreRows, inboundLogRow, postContextRow, List.filter_append]
      · cases send <;> constructor <;>
          simp [ctxStoreRows, inboundLogRow, postContextRow, outboundLogRow,
            List.filter_append]

/-- C1 witness: the amended counts at the concrete post-context event. -/
theorem inbound_before_outgoing_witness :
    ((_process_messaging_event (fun _ => "d") (fun _ => none) (fun m => m) .success dbC1
        eventC1 (some "pg") 100).2.filter (fun r => r.direction == .incoming)).length =
      (if eventC1.post_context.isSome then 2 else 1) :=
  (((inbound_before_outgoing (fun _ => "d") (fun _ => none) (fun m => m) .success dbC1
      eventC1 (some "pg") 100).2.2) businessC1 (by decide) rfl (by decide)).1

end Conversa
